import Mathlib

/-!
Verification of the Birdseye metrics-simulator mutation gate.

Shallow embedding of the client-side rate-limit evaluator, attempt
ledger, apply orchestration and sliding-captcha puzzle found in
`src/frontend/src/pages/MetricsSimulator.jsx`,
`src/frontend/src/utils/Utils.jsx` (SlidingCaptcha) and
`src/components/RateLimitManager.jsx`.

Timestamps (JS `Date.now()` milliseconds) are embedded as `Int`;
pixel positions, metric values and scales (JS numbers) are embedded as
exact rationals `ℚ`.  The persisted store (`localStorage`) is embedded
at two levels: a list level (`List Int`, the ledger as parsed), used
when the store holds what the program itself writes, and a raw string
level (`Option String` plus a parser for JSON integer arrays) used to
settle the corrupt/missing-data behaviour.
-/

namespace Birdseye

/-- Source constant `APPLY_LIMIT_PER_15MINUTES = 3` (MetricsSimulator.jsx line 12). -/
def APPLY_LIMIT_PER_15MINUTES : Nat := 3

/-- Source constant `RECOMMENDED_COOLDOWN = 10` seconds (MetricsSimulator.jsx line 13). -/
def RECOMMENDED_COOLDOWN : Nat := 10

/-- The 15-minute quota window in milliseconds, `15 * 60 * 1000`. -/
def WINDOW_MS : Int := 15 * 60 * 1000

/-- The `rateLimitInfo` state object set by `updateRateLimitInfo`
(MetricsSimulator.jsx lines 48-52 and 110-114).  The field
`appliesInLastMinute` keeps the source's (misleading) name; it counts
applies in the last 15 minutes. -/
structure RateLimitInfo where
  isLimited : Bool
  remainingTime : Nat
  appliesInLastMinute : Nat
deriving DecidableEq, Repr

/-- The window filter of MetricsSimulator.jsx lines 88-89:
`.filter(timestamp => timestamp > fifteenMinutesAgo)` with
`fifteenMinutesAgo = now - 15*60*1000`. -/
def pruneWindow (ledger : List Int) (now : Int) : List Int :=
  ledger.filter (fun t => now - WINDOW_MS < t)

/-- Line 94 of MetricsSimulator.jsx:
`recentApplies.length > 0 ? Math.max(...recentApplies) : 0`. -/
def lastApplyOf (l : List Int) : Int :=
  match l with
  | [] => 0
  | x :: xs => xs.foldl max x

/-- Function `updateRateLimitInfo` (MetricsSimulator.jsx lines 83-115) at the
list level.  The first component of the result is the pruned list that
line 92 persists back to the store
(`localStorage.setItem('recentApplies', ...)`); the second is the
snapshot passed to `setRateLimitInfo`. -/
def updateRateLimitInfo (ledger : List Int) (now : Int) :
    List Int × RateLimitInfo :=
  let recentApplies := pruneWindow ledger now
  let lastApplyTime := lastApplyOf recentApplies
  let timeSinceLast := now - lastApplyTime
  let isInCooldown := timeSinceLast < (RECOMMENDED_COOLDOWN : Int) * 1000
  let isAtLimit := recentApplies.length ≥ APPLY_LIMIT_PER_15MINUTES
  (recentApplies,
    { isLimited := isInCooldown || isAtLimit
      remainingTime :=
        if isInCooldown then
          (((RECOMMENDED_COOLDOWN : Int) * 1000 - timeSinceLast).toNat + 999) / 1000
        else 0
      appliesInLastMinute := recentApplies.length })

/-- The spec's cooldown formula (spec section 4.2 step 4):
`max(0, ceil((cooldownSeconds*1000 - (now - lastAttempt)) / 1000))`,
written over integers: for a positive numerator `n`, `ceil (n / 1000)`
is `(n + 999) / 1000`, and for a non-positive numerator the `max 0`
clamps the result to `0` (which `Int.toNat` of the small or negative
shifted numerator, divided by `1000`, also yields). -/
def specCooldownRemaining (now lastAttempt : Int) : Nat :=
  (((RECOMMENDED_COOLDOWN : Int) * 1000 - (now - lastAttempt)) + 999).toNat / 1000

/-! ### Basic facts about the ledger maximum and the window filter -/

theorem le_foldl_max (xs : List Int) : ∀ a : Int, a ≤ xs.foldl max a := by
  induction xs with
  | nil => intro a; exact le_refl a
  | cons y ys ih =>
      intro a
      exact le_trans (le_max_left a y) (ih (max a y))

theorem foldl_max_le (xs : List Int) :
    ∀ a : Int, ∀ t ∈ xs, t ≤ xs.foldl max a := by
  induction xs with
  | nil => intro a t ht; cases ht
  | cons y ys ih =>
      intro a t ht
      rcases List.mem_cons.mp ht with h | h
      · subst h
        exact le_trans (le_max_right a t) (le_foldl_max ys (max a t))
      · exact ih (max a y) t h

theorem foldl_max_mem (xs : List Int) :
    ∀ a : Int, xs.foldl max a = a ∨ xs.foldl max a ∈ xs := by
  induction xs with
  | nil => intro a; exact Or.inl rfl
  | cons y ys ih =>
      intro a
      rcases ih (max a y) with h | h
      · rcases max_choice a y with hm | hm
        · exact Or.inl (by simpa [hm] using h)
        · refine Or.inr ?_
          simp only [List.foldl_cons]
          rw [h, hm]
          exact List.mem_cons_self y ys
      · exact Or.inr (List.mem_cons_of_mem y h)

theorem lastApplyOf_mem {l : List Int} (h : l ≠ []) : lastApplyOf l ∈ l := by
  cases l with
  | nil => exact absurd rfl h
  | cons x xs =>
      rcases foldl_max_mem xs x with h' | h'
      · simp [lastApplyOf, h']
      · exact List.mem_cons_of_mem x (by simpa [lastApplyOf] using h')

theorem le_lastApplyOf {l : List Int} {t : Int} (ht : t ∈ l) :
    t ≤ lastApplyOf l := by
  cases l with
  | nil => cases ht
  | cons x xs =>
      rcases List.mem_cons.mp ht with h | h
      · subst h; exact le_foldl_max xs t
      · exact foldl_max_le xs x t h

theorem pruneWindow_sublist (l : List Int) (now : Int) :
    (pruneWindow l now).Sublist l :=
  List.filter_sublist l

theorem pruneWindow_idem (l : List Int) (now : Int) :
    pruneWindow (pruneWindow l now) now = pruneWindow l now := by
  simp [pruneWindow, List.filter_filter]

/-- The window predicate of the source, `timestamp > now - 15*60*1000`,
counts exactly the timestamps `t` with `now - t < 15` minutes. -/
theorem pruneWindow_eq_window (l : List Int) (now : Int) :
    pruneWindow l now = l.filter (fun t => now - t < WINDOW_MS) := by
  unfold pruneWindow
  refine List.filter_congr ?_
  intro t _
  simp only [decide_eq_decide]
  omega

/-! ### Evaluator component lemmas -/

theorem updateRateLimitInfo_fst (l : List Int) (now : Int) :
    (updateRateLimitInfo l now).1 = pruneWindow l now := rfl

theorem updateRateLimitInfo_count (l : List Int) (now : Int) :
    (updateRateLimitInfo l now).2.appliesInLastMinute
      = (pruneWindow l now).length := rfl

/-- The snapshot's `remainingTime` is positive exactly when the source's
`isInCooldown` test holds. -/
theorem remainingTime_pos_iff (l : List Int) (now : Int) :
    0 < (updateRateLimitInfo l now).2.remainingTime ↔
      now - lastApplyOf (pruneWindow l now) < (RECOMMENDED_COOLDOWN : Int) * 1000 := by
  unfold updateRateLimitInfo
  simp only [RECOMMENDED_COOLDOWN]
  constructor
  · intro h
    by_contra hc
    simp only [if_neg hc] at h
    exact absurd h (by omega)
  · intro h
    simp only [if_pos h]
    have h1 : (1000 : Nat) ≤ ((10 : Int) * 1000 - (now - lastApplyOf (pruneWindow l now))).toNat + 999 := by
      omega
    have := (Nat.one_le_div_iff (by omega : (0:Nat) < 1000)).mpr h1
    omega

theorem isLimited_iff (l : List Int) (now : Int) :
    (updateRateLimitInfo l now).2.isLimited = true ↔
      (0 < (updateRateLimitInfo l now).2.remainingTime ∨
        APPLY_LIMIT_PER_15MINUTES ≤ (updateRateLimitInfo l now).2.appliesInLastMinute) := by
  rw [remainingTime_pos_iff]
  unfold updateRateLimitInfo
  simp [Bool.or_eq_true, decide_eq_true_eq]

/-- The source's guarded ceiling (`isInCooldown ? Math.ceil(...) : 0`)
agrees with the spec's clamped ceiling formula for every elapsed time. -/
theorem remainingTime_eq_spec (l : List Int) (now : Int) :
    (updateRateLimitInfo l now).2.remainingTime
      = specCooldownRemaining now (lastApplyOf (pruneWindow l now)) := by
  unfold updateRateLimitInfo specCooldownRemaining
  set d := now - lastApplyOf (pruneWindow l now) with hd
  by_cases h : d < (RECOMMENDED_COOLDOWN : Int) * 1000
  · simp only [if_pos h]
    have : ((RECOMMENDED_COOLDOWN : Int) * 1000 - d).toNat + 999
        = ((RECOMMENDED_COOLDOWN : Int) * 1000 - d + 999).toNat := by
      simp only [RECOMMENDED_COOLDOWN] at h ⊢
      omega
    rw [this]
  · simp only [if_neg h]
    have : ((RECOMMENDED_COOLDOWN : Int) * 1000 - d + 999).toNat < 1000 := by
      simp only [RECOMMENDED_COOLDOWN] at h ⊢
      omega
    exact (Nat.div_eq_of_lt this).symm

/-! ### Claims C3, C4, C9 about the evaluator -/

/-- C3, counterexample: a periodic re-evaluation is not side-effect-free
with respect to the persisted ledger store.  With the store holding the
single timestamp `5` and current time `1000000000`, the tick writes the
pruned list `[]` back to `recentApplies` (MetricsSimulator.jsx line 92),
changing the stored ledger. -/
theorem tick_writes_ledger_cex :
    (updateRateLimitInfo [5] 1000000000).1 ≠ [5] := by decide

/-- C3, amended: every `updateRateLimitInfo` tick writes the pruned
window back to the store, and that write is prune-only and idempotent —
it persists exactly the in-window subsequence of the stored ledger,
never appends, and a second evaluation at the same instant reproduces
the same store content and snapshot.  Appending is done only by the
apply controller's success path. -/
theorem tick_write_prune_only (l : List Int) (now : Int) :
    (updateRateLimitInfo l now).1 = pruneWindow l now ∧
    (pruneWindow l now).Sublist l ∧
    updateRateLimitInfo (updateRateLimitInfo l now).1 now
      = updateRateLimitInfo l now := by
  refine ⟨rfl, pruneWindow_sublist l now, ?_⟩
  show updateRateLimitInfo (pruneWindow l now) now = updateRateLimitInfo l now
  unfold updateRateLimitInfo
  rw [pruneWindow_idem]

/-- C4: for every ledger content and current time with a non-empty
attempt window, the snapshot matches the spec's algorithm:
`appliesInLastMinute` counts the timestamps `t` with `now - t < 15`
minutes, `remainingTime` is `max(0, ceil((10*1000 - (now - last))/1000))`
where `last` is the maximum in-window timestamp, and `isLimited` is the
disjunction of a positive cooldown and the quota `3` being reached. -/
theorem evaluator_matches_spec (l : List Int) (now : Int)
    (hne : pruneWindow l now ≠ []) :
    (updateRateLimitInfo l now).2.appliesInLastMinute
        = (l.filter (fun t => now - t < WINDOW_MS)).length ∧
    (updateRateLimitInfo l now).2.remainingTime
        = specCooldownRemaining now (lastApplyOf (pruneWindow l now)) ∧
    lastApplyOf (pruneWindow l now) ∈ pruneWindow l now ∧
    (∀ t ∈ pruneWindow l now, t ≤ lastApplyOf (pruneWindow l now)) ∧
    ((updateRateLimitInfo l now).2.isLimited = true ↔
      (0 < (updateRateLimitInfo l now).2.remainingTime ∨
        APPLY_LIMIT_PER_15MINUTES ≤ (updateRateLimitInfo l now).2.appliesInLastMinute)) := by
  refine ⟨?_, remainingTime_eq_spec l now, lastApplyOf_mem hne,
    fun t ht => le_lastApplyOf ht, isLimited_iff l now⟩
  rw [updateRateLimitInfo_count, pruneWindow_eq_window]

/-- Witness for C4 at ledger `[1000]`, time `2000`: the window is
non-empty and the snapshot equals the spec formula's values. -/
theorem evaluator_matches_spec_witness :
    (updateRateLimitInfo [1000] 2000).2.remainingTime
      = specCooldownRemaining 2000 (lastApplyOf (pruneWindow [1000] 2000)) :=
  (evaluator_matches_spec [1000] 2000 (by decide)).2.1

/-- C9: on an empty ledger the evaluator's last-attempt sentinel is `0`
(epoch), so for every `now ≥ 10000` ms the snapshot is unlimited with
zero remaining cooldown and zero attempts, while for `now < 10000` ms
the evaluator spuriously reports an active cooldown. -/
theorem empty_ledger_sentinel (now : Int) :
    ((RECOMMENDED_COOLDOWN : Int) * 1000 ≤ now →
      (updateRateLimitInfo [] now).2
        = { isLimited := false, remainingTime := 0, appliesInLastMinute := 0 }) ∧
    (now < (RECOMMENDED_COOLDOWN : Int) * 1000 →
      (updateRateLimitInfo [] now).2.isLimited = true ∧
      0 < (updateRateLimitInfo [] now).2.remainingTime ∧
      (updateRateLimitInfo [] now).2.appliesInLastMinute = 0) := by
  constructor
  · intro h
    unfold updateRateLimitInfo
    simp only [pruneWindow, List.filter_nil, lastApplyOf]
    have hnc : ¬ (now - 0 < (RECOMMENDED_COOLDOWN : Int) * 1000) := by omega
    simp only [RECOMMENDED_COOLDOWN, APPLY_LIMIT_PER_15MINUTES] at hnc h ⊢
    simp [hnc]
    exact ⟨by omega, fun hlt => absurd hlt (by omega)⟩
  · intro h
    have hpos : 0 < (updateRateLimitInfo [] now).2.remainingTime := by
      rw [remainingTime_pos_iff]
      simp only [pruneWindow, List.filter_nil, lastApplyOf]
      omega
    refine ⟨?_, hpos, rfl⟩
    rw [isLimited_iff]
    exact Or.inl hpos

/-- Witness for C9 at `now = 20000` and `now = 5000`. -/
theorem empty_ledger_sentinel_witness :
    (updateRateLimitInfo [] 20000).2
      = { isLimited := false, remainingTime := 0, appliesInLastMinute := 0 } ∧
    (updateRateLimitInfo [] 5000).2.isLimited = true :=
  ⟨(empty_ledger_sentinel 20000).1 (by decide),
   ((empty_ledger_sentinel 5000).2 (by decide)).1⟩

/-! ### The apply controller (`applyChanges`, MetricsSimulator.jsx lines 150-248)

The component state relevant to gating: the `isCaptchaVerified` flag
(from `SlidingCaptcha`'s `onVerify`), the last `rateLimitInfo` snapshot,
the `isApplying` flag, the persisted `recentApplies` ledger and the
`captchaKey` used to force-remount (reissue) the puzzle. -/

structure SimState where
  isCaptchaVerified : Bool
  rateLimitInfo : RateLimitInfo
  isApplying : Bool
  ledger : List Int
  captchaKey : Nat
deriving DecidableEq, Repr

/-- How the `fetch` of lines 190-195 terminates: it resolves with an
HTTP status (`response.ok` iff the status is 2xx), aborts on the 15 s
timeout (`AbortError`), or fails in transport (`TypeError`). -/
inductive NetResult where
  | resolved (status : Nat)
  | timedOut
  | transportFailed
deriving DecidableEq, Repr

/-- Predicate for `response.ok`: status in `[200, 300)`. -/
def NetResult.isSuccess : NetResult → Bool
  | .resolved s => decide (200 ≤ s) && decide (s < 300)
  | _ => false

/-- The user-visible result of one `applyChanges` call, each constructor
standing for one `setLastError` message (or the success path):
`verificationRequired` for line 152, `cooldownRejected r` for the
"Please wait r seconds" message of line 159, `quotaRejected` for the
"Rate limit exceeded" message of line 161, `applied` for the success
path, `failed n` for the catch block of lines 233-244 after network
result `n`. -/
inductive ApplyOutcome where
  | verificationRequired
  | cooldownRejected (remainingSeconds : Nat)
  | quotaRejected
  | applied
  | failed (n : NetResult)
deriving DecidableEq, Repr

/-- Result of the synchronous prefix of `applyChanges` (lines 150-195),
up to and including issuing the `fetch`: either an early `return` with a
rejection, or the submission went out (with `isApplying` set). -/
inductive StartResult where
  | rejected (out : ApplyOutcome)
  | submitted
deriving DecidableEq, Repr

/-- Lines 150-196 of `applyChanges`: the captcha gate, the rate-limit
gate (cooldown wording when `remainingTime > 0`, quota wording
otherwise), then `setIsApplying(true)` and the single `fetch`.  Note the
source checks neither `isApplying` nor any in-flight marker here. -/
def applyChangesStart (st : SimState) : SimState × StartResult :=
  if st.isCaptchaVerified = false then
    (st, .rejected .verificationRequired)
  else if st.rateLimitInfo.isLimited then
    if 0 < st.rateLimitInfo.remainingTime then
      (st, .rejected (.cooldownRejected st.rateLimitInfo.remainingTime))
    else
      (st, .rejected .quotaRejected)
  else
    ({ st with isApplying := true }, .submitted)

/-- Lines 197-247: resolution of the awaited `fetch`.  On `response.ok`
the controller prunes-and-appends `now` to the persisted ledger
(lines 218-222), resets the captcha (lines 225-226), re-evaluates the
rate limit (line 231); on any non-2xx status or thrown error the catch
block only records the message.  `finally` clears `isApplying`. -/
def applyChangesResolve (st : SimState) (now : Int) (net : NetResult) :
    SimState × ApplyOutcome :=
  if net.isSuccess then
    let recentApplies := pruneWindow st.ledger now ++ [now]
    let tick := updateRateLimitInfo recentApplies now
    ({ st with
        isApplying := false
        ledger := tick.1
        rateLimitInfo := tick.2
        isCaptchaVerified := false
        captchaKey := st.captchaKey + 1 }, .applied)
  else
    ({ st with isApplying := false }, .failed net)

/-- One whole `applyChanges` call, composing the synchronous prefix with
the network resolution; the `Bool` records whether this call issued a
network submission. -/
def applyChanges (st : SimState) (now : Int) (net : NetResult) :
    SimState × ApplyOutcome × Bool :=
  match applyChangesStart st with
  | (st', .rejected out) => (st', out, false)
  | (st', .submitted) =>
      let r := applyChangesResolve st' now net
      (r.1, r.2, true)

/-- Guard `isApplyDisabled` (MetricsSimulator.jsx line 258):
`!hasChanges || isApplying || !isCaptchaVerified || rateLimitInfo.isLimited`. -/
def isApplyDisabled (hasChanges isApplying isCaptchaVerified isLimited : Bool) : Bool :=
  !hasChanges || isApplying || !isCaptchaVerified || isLimited

/-- Pruning the freshly appended ledger at the same instant keeps every
entry: the surviving window plus the new timestamp itself. -/
theorem pruneWindow_append_now (l : List Int) (now : Int) :
    pruneWindow (pruneWindow l now ++ [now]) now = pruneWindow l now ++ [now] := by
  have h : now - WINDOW_MS < now := by simp only [WINDOW_MS]; omega
  simp [pruneWindow, List.filter_append, List.filter_filter, h]

/-! ### Claims C1, C2, C6 about the apply controller -/

/-- C1: the persisted attempt ledger is written by `applyChanges` if and
only if the call reaches the network and the submission resolves with a
2xx status; every locally rejected call and every failed submission
leaves the ledger exactly unchanged, and the success path appends the
current timestamp to the pruned window. -/
theorem no_charge_on_failure (st : SimState) (now : Int) (net : NetResult) :
    ((applyChanges st now net).2.1 ≠ ApplyOutcome.applied →
      (applyChanges st now net).1.ledger = st.ledger) ∧
    ((applyChanges st now net).2.1 = ApplyOutcome.applied →
      (applyChanges st now net).1.ledger = pruneWindow st.ledger now ++ [now]) ∧
    ((applyChanges st now net).2.1 = ApplyOutcome.applied ↔
      (st.isCaptchaVerified = true ∧ st.rateLimitInfo.isLimited = false ∧
        net.isSuccess = true)) := by
  unfold applyChanges applyChangesStart applyChangesResolve
  by_cases h1 : st.isCaptchaVerified = false
  · simp [h1]
  · have h1' : st.isCaptchaVerified = true := by
      revert h1; cases st.isCaptchaVerified <;> simp
    by_cases h2 : st.rateLimitInfo.isLimited
    · by_cases h3 : 0 < st.rateLimitInfo.remainingTime <;>
        simp [h1, h1', h2, h3]
    · by_cases h4 : net.isSuccess <;>
        simp [h1, h1', h2, h4, updateRateLimitInfo_fst, pruneWindow_append_now]

/-- Witness for C1: with the captcha verified, no limit active and a
200 response at time 1000000, the ledger gains exactly the new
timestamp; with a 500 response it is unchanged. -/
theorem no_charge_on_failure_witness :
    (applyChanges
      { isCaptchaVerified := true
        rateLimitInfo := { isLimited := false, remainingTime := 0, appliesInLastMinute := 0 }
        isApplying := false, ledger := [], captchaKey := 0 }
      1000000 (NetResult.resolved 200)).1.ledger = pruneWindow [] 1000000 ++ [1000000] ∧
    (applyChanges
      { isCaptchaVerified := true
        rateLimitInfo := { isLimited := false, remainingTime := 0, appliesInLastMinute := 0 }
        isApplying := false, ledger := [], captchaKey := 0 }
      1000000 (NetResult.resolved 500)).1.ledger = [] :=
  ⟨(no_charge_on_failure _ 1000000 (NetResult.resolved 200)).2.1 (by decide),
   (no_charge_on_failure _ 1000000 (NetResult.resolved 500)).1 (by decide)⟩

/-- C2, counterexample: `applyChanges` contains no in-flight guard and no
`AlreadyInProgress` outcome.  Starting from a verified, unlimited, idle
state, the first call's synchronous prefix sets `isApplying = true` and
submits; a second call issued before the first resolves also reaches
`submitted` — it issues its own network request instead of being
rejected. -/
theorem reentrancy_cex :
    (applyChangesStart
      { isCaptchaVerified := true
        rateLimitInfo := { isLimited := false, remainingTime := 0, appliesInLastMinute := 0 }
        isApplying := false, ledger := [], captchaKey := 0 }).1.isApplying = true ∧
    (applyChangesStart ((applyChangesStart
      { isCaptchaVerified := true
        rateLimitInfo := { isLimited := false, remainingTime := 0, appliesInLastMinute := 0 }
        isApplying := false, ledger := [], captchaKey := 0 }).1)).2
      = StartResult.submitted := by
  constructor <;> decide

/-- C2, amended: `applyChanges` itself performs no in-flight check — any
call whose captcha and rate-limit gates pass issues a network
submission, whatever the value of `isApplying`; re-entrancy is prevented
only at the UI layer, where the apply button is disabled
(`isApplyDisabled`) whenever `isApplying` is true. -/
theorem no_inflight_guard (st : SimState)
    (hc : st.isCaptchaVerified = true)
    (hl : st.rateLimitInfo.isLimited = false) :
    (applyChangesStart st).2 = StartResult.submitted ∧
    (∀ hasChanges isCaptcha isLimited : Bool,
      isApplyDisabled hasChanges true isCaptcha isLimited = true) := by
  constructor
  · unfold applyChangesStart
    simp [hc, hl]
  · intro a b c
    simp [isApplyDisabled]

/-- Witness for C2's amended statement at a state that is already
mid-flight (`isApplying = true`). -/
theorem no_inflight_guard_witness :
    (applyChangesStart
      { isCaptchaVerified := true
        rateLimitInfo := { isLimited := false, remainingTime := 0, appliesInLastMinute := 0 }
        isApplying := true, ledger := [], captchaKey := 0 }).2
      = StartResult.submitted :=
  (no_inflight_guard _ rfl rfl).1

/-- C6: when both the cooldown gate and the quota gate are active, the
rejection surfaced by `applyChanges` uses the cooldown remaining-time
wording; `isLimited` is true whenever either gate is active; and the
quota-exhausted wording appears exactly when the snapshot is limited
with zero remaining cooldown. -/
theorem cooldown_wording_precedence (l : List Int) (now : Int) (st : SimState)
    (hc : st.isCaptchaVerified = true)
    (hinfo : st.rateLimitInfo = (updateRateLimitInfo l now).2) :
    (0 < st.rateLimitInfo.remainingTime →
      APPLY_LIMIT_PER_15MINUTES ≤ st.rateLimitInfo.appliesInLastMinute →
      (applyChangesStart st).2
        = StartResult.rejected (ApplyOutcome.cooldownRejected st.rateLimitInfo.remainingTime)) ∧
    ((0 < st.rateLimitInfo.remainingTime ∨
        APPLY_LIMIT_PER_15MINUTES ≤ st.rateLimitInfo.appliesInLastMinute) →
      st.rateLimitInfo.isLimited = true) ∧
    ((applyChangesStart st).2 = StartResult.rejected ApplyOutcome.quotaRejected ↔
      (st.rateLimitInfo.isLimited = true ∧ st.rateLimitInfo.remainingTime = 0)) := by
  have hlim_iff := isLimited_iff l now
  rw [← hinfo] at hlim_iff
  refine ⟨?_, fun h => hlim_iff.mpr h, ?_, ?_⟩
  · intro hr _
    have hl : st.rateLimitInfo.isLimited = true := hlim_iff.mpr (Or.inl hr)
    unfold applyChangesStart
    simp [hc, hl, hr]
  · intro h
    unfold applyChangesStart at h
    by_cases hl : st.rateLimitInfo.isLimited
    · by_cases hr : 0 < st.rateLimitInfo.remainingTime
      · simp [hc, hl, hr] at h
      · exact ⟨hl, by omega⟩
    · simp [hc, hl] at h
  · rintro ⟨hl, hr⟩
    unfold applyChangesStart
    simp [hc, hl, hr]

/-- Witness for C6 at ledger `[0, 1, 2]`, time `3` ms: three applies in
the window (quota gate active) and one millisecond since the last apply
(cooldown gate active); the rejection carries the cooldown wording. -/
theorem cooldown_wording_precedence_witness :
    0 < (updateRateLimitInfo [0, 1, 2] 3).2.remainingTime ∧
    APPLY_LIMIT_PER_15MINUTES ≤ (updateRateLimitInfo [0, 1, 2] 3).2.appliesInLastMinute ∧
    (applyChangesStart
      { isCaptchaVerified := true
        rateLimitInfo := (updateRateLimitInfo [0, 1, 2] 3).2
        isApplying := false, ledger := [0, 1, 2], captchaKey := 0 }).2
      = StartResult.rejected
          (ApplyOutcome.cooldownRejected (updateRateLimitInfo [0, 1, 2] 3).2.remainingTime) :=
  ⟨by decide, by decide,
   (cooldown_wording_precedence [0, 1, 2] 3 _ rfl rfl).1 (by decide) (by decide)⟩

/-! ### The sliding-captcha puzzle (SlidingCaptcha in Utils.jsx)

Pixel positions are JS numbers, embedded as exact rationals. -/

/-- Source constant `HANDLE_WIDTH = 40` px. -/
def HANDLE_WIDTH : ℚ := 40

/-- Source constant `TARGET_WIDTH = 32` px. -/
def TARGET_WIDTH : ℚ := 32

/-- Source constant `tolerance = 5` px. -/
def tolerance : ℚ := 5

/-- The puzzle state: `puzzlePosition` (the target offset),
`sliderPosition` (the handle offset) and the `isVerified` flag. -/
structure PuzzleState where
  puzzlePosition : ℚ
  sliderPosition : ℚ
  isVerified : Bool
deriving DecidableEq, Repr

/-- Function `checkVerification` (Utils.jsx SlidingCaptcha): solved exactly when
the handle center `sliderPos + HANDLE_WIDTH/2` is within `tolerance` of
the target center `puzzlePosition + TARGET_WIDTH/2`. -/
def checkVerification (sliderPos puzzlePosition : ℚ) : Bool :=
  decide (|sliderPos + HANDLE_WIDTH / 2 - (puzzlePosition + TARGET_WIDTH / 2)| ≤ tolerance)

/-- Function `generateNewPuzzle` (Utils.jsx SlidingCaptcha): draws the target at
`random * (0.75·w - 0.15·w) + 0.15·w` for a `Math.random()` value
`r ∈ [0, 1)`, resets the handle to the origin and clears the verified
flag.  It is called on mount, on the explicit reset button, and — via
the `captchaKey` remount forced by `applyChanges` on success — after
every confirmed apply; it overwrites the whole puzzle state, so the
result does not depend on the prior state. -/
def generateNewPuzzle (containerWidth r : ℚ) : PuzzleState :=
  let minPos := containerWidth * (15 / 100)
  let maxPos := containerWidth * (75 / 100)
  { puzzlePosition := r * (maxPos - minPos) + minPos
    sliderPosition := 0
    isVerified := false }

/-! ### Claims C7 and C8 about the puzzle -/

/-- C7: the puzzle classifies a handle position as solved exactly when
the distance between the handle center and target center is at most the
tolerance (closed interval): a distance of exactly `tolerance` is
solved, and a distance of `tolerance + 1` is not. -/
theorem boundary_tolerance (sliderPos puzzlePosition : ℚ) :
    (checkVerification sliderPos puzzlePosition = true ↔
      |sliderPos + HANDLE_WIDTH / 2 - (puzzlePosition + TARGET_WIDTH / 2)| ≤ tolerance) ∧
    (|sliderPos + HANDLE_WIDTH / 2 - (puzzlePosition + TARGET_WIDTH / 2)| = tolerance →
      checkVerification sliderPos puzzlePosition = true) ∧
    (|sliderPos + HANDLE_WIDTH / 2 - (puzzlePosition + TARGET_WIDTH / 2)| = tolerance + 1 →
      checkVerification sliderPos puzzlePosition = false) := by
  refine ⟨by simp [checkVerification], ?_, ?_⟩
  · intro h
    simp [checkVerification, h]
  · intro h
    simp only [checkVerification, decide_eq_false_iff_not, not_le, h, tolerance]
    norm_num

/-- Witness for C7: handle at `0` with target center one tolerance away
(`puzzlePosition = 9`, distance exactly `5`) is solved; at distance `6`
(`puzzlePosition = 10`) it is not. -/
theorem boundary_tolerance_witness :
    checkVerification 0 9 = true ∧ checkVerification 0 10 = false :=
  ⟨(boundary_tolerance 0 9).2.1 (by norm_num [HANDLE_WIDTH, TARGET_WIDTH, tolerance]),
   (boundary_tolerance 0 10).2.2 (by norm_num [HANDLE_WIDTH, TARGET_WIDTH, tolerance])⟩

/-- C8: every puzzle reissue yields an unsolved puzzle with the handle
at the origin and a target offset inside the safe sub-range
`[0.15·trackWidth, 0.75·trackWidth]`, for any `Math.random()` draw
`r ∈ [0, 1)` and non-negative track width, regardless of prior state. -/
theorem puzzle_reissue (containerWidth r : ℚ)
    (hw : 0 ≤ containerWidth) (hr0 : 0 ≤ r) (hr1 : r < 1) :
    (generateNewPuzzle containerWidth r).isVerified = false ∧
    (generateNewPuzzle containerWidth r).sliderPosition = 0 ∧
    containerWidth * (15 / 100) ≤ (generateNewPuzzle containerWidth r).puzzlePosition ∧
    (generateNewPuzzle containerWidth r).puzzlePosition ≤ containerWidth * (75 / 100) := by
  refine ⟨rfl, rfl, ?_, ?_⟩
  · simp only [generateNewPuzzle]
    nlinarith
  · simp only [generateNewPuzzle]
    nlinarith

/-- Witness for C8 at track width `300` and random draw `1/2`: the
target lands at `135`, inside `[45, 225]`. -/
theorem puzzle_reissue_witness :
    (generateNewPuzzle 300 (1/2)).isVerified = false ∧
    (generateNewPuzzle 300 (1/2)).sliderPosition = 0 ∧
    (300 : ℚ) * (15 / 100) ≤ (generateNewPuzzle 300 (1/2)).puzzlePosition ∧
    (generateNewPuzzle 300 (1/2)).puzzlePosition ≤ (300 : ℚ) * (75 / 100) :=
  puzzle_reissue 300 (1/2) (by norm_num) (by norm_num) (by norm_num)

/-! ### Metric scaling (MetricsSimulator.jsx lines 31-37 and 170-177)

Metric values and scales are JS numbers, embedded as exact rationals. -/

/-- The value and scale pair of one entry of the `metrics` /
`appliedMetrics` state. -/
structure MetricState where
  value : ℚ
  scale : ℚ
deriving DecidableEq, Repr

/-- One successful apply for one metric (lines 170-177): the base value
is recovered as `appliedMetrics[key].value / appliedMetrics[key].scale`
and the new applied value is that base times the newly requested scale,
which also becomes the new applied scale (the `...metric` spread). -/
def applyMetric (applied : MetricState) (newScale : ℚ) : MetricState :=
  { value := applied.value / applied.scale * newScale, scale := newScale }

/-- The three initial metrics of lines 31-37:
`http_request_duration_seconds` at `0.250` s, `cpu_seconds_total` at
`1540.25` s, `process_memory_bytes` at `536870912` bytes, all at
scale `1`. -/
def initialMetrics : List MetricState :=
  [ { value := 1 / 4, scale := 1 }
  , { value := 6161 / 4, scale := 1 }
  , { value := 536870912, scale := 1 } ]

theorem applyMetric_fold_inv (v0 : ℚ) (scales : List ℚ) :
    ∀ m : MetricState, m.value = v0 * m.scale → m.scale ≠ 0 →
    (∀ s ∈ scales, s ≠ 0) →
    (scales.foldl applyMetric m).value = v0 * (scales.foldl applyMetric m).scale ∧
    (scales.foldl applyMetric m).scale ≠ 0 := by
  induction scales with
  | nil => intro m hm hms _; exact ⟨hm, hms⟩
  | cons s ss ih =>
      intro m hm hms hall
      have hs : s ≠ 0 := hall s (List.mem_cons_self s ss)
      have hstep : (applyMetric m s).value = v0 * (applyMetric m s).scale := by
        simp only [applyMetric, hm]
        field_simp
      exact ih (applyMetric m s) hstep (by simpa [applyMetric] using hs)
        (fun t ht => hall t (List.mem_cons_of_mem s ht))

/-! ### Claim C10 -/

/-- C10: for each of the three metrics, the base value
`value / scale` is invariant under every sequence of successful applies
with non-zero requested scales; the applied value is always the initial
base value times the currently applied scale, and re-applying scale `1`
restores the initial value exactly. -/
theorem base_value_invariant (m0 : MetricState) (hm0 : m0 ∈ initialMetrics)
    (scales : List ℚ) (hall : ∀ s ∈ scales, s ≠ 0) :
    (scales.foldl applyMetric m0).value
        = (m0.value / m0.scale) * (scales.foldl applyMetric m0).scale ∧
    (scales.foldl applyMetric m0).value / (scales.foldl applyMetric m0).scale
        = m0.value / m0.scale ∧
    (applyMetric (scales.foldl applyMetric m0) 1).value = m0.value := by
  have hscale : m0.scale = 1 := by
    fin_cases hm0 <;> rfl
  have hms : m0.scale ≠ 0 := by rw [hscale]; norm_num
  have hbase : m0.value = (m0.value / m0.scale) * m0.scale :=
    (div_mul_cancel₀ m0.value hms).symm
  obtain ⟨hv, hns⟩ := applyMetric_fold_inv (m0.value / m0.scale) scales m0 hbase hms hall
  refine ⟨hv, ?_, ?_⟩
  · rw [hv, mul_div_assoc, div_self hns, mul_one]
  · simp only [applyMetric, mul_one, hv]
    rw [mul_div_assoc, div_self hns, mul_one, hscale, div_one]

/-- Witness for C10: the `0.250` s metric, after applying scales `2`
then `5` and finally scale `1`, returns to exactly `0.250`. -/
theorem base_value_invariant_witness :
    (([2, 5] : List ℚ).foldl applyMetric { value := 1 / 4, scale := 1 }).value
        = ((1 : ℚ) / 4 / 1) * (([2, 5] : List ℚ).foldl applyMetric { value := 1 / 4, scale := 1 }).scale ∧
    (applyMetric (([2, 5] : List ℚ).foldl applyMetric { value := 1 / 4, scale := 1 }) 1).value
        = 1 / 4 := by
  have h := base_value_invariant { value := 1 / 4, scale := 1 }
    (by simp [initialMetrics]) [2, 5] (by norm_num)
  exact ⟨h.1, h.2.2⟩

/-! ### The raw persisted store (`localStorage.getItem('recentApplies')`)

Both reads of the store — the evaluator's (MetricsSimulator.jsx lines
88-89) and the apply controller's (lines 218-220) — are the same
expression `JSON.parse(localStorage.getItem('recentApplies') || '[]')`.
`getItem` yields `null` when the key is missing; `null` and the empty
string are falsy, so both fall back to `'[]'`.  Any other string goes to
`JSON.parse`, which throws on malformed input.  The embedding parses the
store content with a parser for the JSON integer-array values this
program itself writes (`JSON.stringify` of an array of `Date.now()`
values, e.g. `"[1,2]"`); content outside that shape is reported as an
error, as `JSON.parse` (or the subsequent `.filter` on a non-array)
throws on it. -/

def parseNatAux : Nat → List Char → Nat × List Char
  | acc, [] => (acc, [])
  | acc, c :: cs =>
      if c.isDigit then parseNatAux (acc * 10 + (c.toNat - 48)) cs
      else (acc, c :: cs)

def parseNatOpt (cs : List Char) : Option (Nat × List Char) :=
  match cs with
  | [] => none
  | c :: _ => if c.isDigit then some (parseNatAux 0 cs) else none

def parseIntOpt (cs : List Char) : Option (Int × List Char) :=
  match cs with
  | '-' :: rest => (parseNatOpt rest).map (fun p => (-(p.1 : Int), p.2))
  | _ => (parseNatOpt cs).map (fun p => ((p.1 : Int), p.2))

def parseItems : Nat → List Int → List Char → Option (List Int)
  | _, acc, [']'] => some acc.reverse
  | Nat.succ fuel, acc, ',' :: rest =>
      (match parseIntOpt rest with
       | some (n, r) => parseItems fuel (n :: acc) r
       | none => none)
  | _, _, _ => none

/-- A JSON array of integers: `[]` or `[n(,n)*]`. -/
def parseIntArray (s : String) : Option (List Int) :=
  match s.toList with
  | '[' :: rest =>
      (match rest with
       | [']'] => some []
       | _ =>
          match parseIntOpt rest with
          | some (n, r) => parseItems r.length [n] r
          | none => none)
  | _ => none

/-- The shared read of the persisted ledger store:
`JSON.parse(localStorage.getItem('recentApplies') || '[]')`.  `ok` is
the parsed ledger; `error` models the thrown `SyntaxError`. -/
def readLedgerStore (store : Option String) : Except String (List Int) :=
  let raw := match store with
             | none => "[]"
             | some s => if s = "" then "[]" else s
  match parseIntArray raw with
  | some l => Except.ok l
  | none => Except.error "SyntaxError: JSON.parse"

/-- Evaluation over the raw store: the tick either evaluates
the parsed ledger or propagates the parse exception (the source has no
try/catch around lines 88-92). -/
def updateRateLimitInfoRaw (store : Option String) (now : Int) :
    Except String (List Int × RateLimitInfo) :=
  (readLedgerStore store).map (fun l => updateRateLimitInfo l now)

/-! ### Claim C5 -/

/-- C5, counterexample: corrupt store data is not treated as an empty
ledger.  With the store holding the non-JSON string `"oops"`, both the
evaluator's read and the apply controller's read throw a parse error
instead of yielding the empty ledger. -/
theorem corrupt_store_cex :
    readLedgerStore (some "oops") = Except.error "SyntaxError: JSON.parse" ∧
    updateRateLimitInfoRaw (some "oops") 20000
      = Except.error "SyntaxError: JSON.parse" := by
  constructor <;> rfl

/-- C5, amended: only missing data (a `null` from `getItem`, or the
falsy empty string) is fail-open, read as the empty ledger; well-formed
stored ledgers parse back to themselves; malformed data makes the read
throw rather than fail open. -/
theorem store_fail_open_missing_only (now : Int) :
    readLedgerStore none = Except.ok [] ∧
    readLedgerStore (some "") = Except.ok [] ∧
    readLedgerStore (some "[]") = Except.ok [] ∧
    readLedgerStore (some "[1,2]") = Except.ok [1, 2] ∧
    updateRateLimitInfoRaw none now = Except.ok (updateRateLimitInfo [] now) ∧
    updateRateLimitInfoRaw (some "oops") now
      = Except.error "SyntaxError: JSON.parse" := by
  refine ⟨rfl, rfl, rfl, rfl, rfl, rfl⟩

end Birdseye
